import Mathlib

/-!
Shallow embedding of `src/component.py` from audio-visualizer-python:
the `Component` base class (attribute initialization, preset bookkeeping,
keyword-argument forwarding, command-line dispatch) and the
`BadComponentInit` exception type.

Python values stored in attributes and preset dictionaries are modelled by
`PyValue`; side effects (printing, signal emission, calls into the core,
process termination via `quit`) are modelled as explicit event traces and
an optional exit code.
-/

/-- A Python value as it appears in this module: `None`, strings, ints,
booleans, and opaque object handles (e.g. the core controller). -/
inductive PyValue where
  | none
  | str (s : String)
  | int (n : Int)
  | bool (b : Bool)
  | obj (id : Nat)
deriving DecidableEq, Repr

/-- Python `str()` as used by `%s` formatting for the values we model. -/
def pyStr : PyValue → String
  | PyValue.none => "None"
  | PyValue.str s => s
  | PyValue.int n => toString n
  | PyValue.bool b => if b then "True" else "False"
  | PyValue.obj i => "<object " ++ toString i ++ ">"

/-- Python exceptions raised by the code under consideration. -/
inductive PyError where
  | keyError (k : String)
  | valueError
deriving DecidableEq, Repr

/-- A Python dict with string keys, as an association list in insertion
order (Python 3.7+ dicts preserve insertion order). -/
abbrev PyDict := List (String × PyValue)

/-- `d[k] = v` on a Python dict: replace the value at an existing key in
place, otherwise append the new binding at the end. -/
def dictInsert : PyDict → String → PyValue → PyDict
  | [], k, v => [(k, v)]
  | (k', v') :: rest, k, v =>
    if k' = k then (k, v) :: rest else (k', v') :: dictInsert rest k v

/-- `d[k]` lookup on a Python dict; `Option.none` models a `KeyError`. -/
def dictGet : PyDict → String → Option PyValue
  | [], _ => Option.none
  | (k', v') :: rest, k => if k' = k then some v' else dictGet rest k

/-- `charsStartWith p s` holds when the char list `p` starts the list `s`. -/
def charsStartWith : List Char → List Char → Bool
  | [], _ => true
  | _ :: _, [] => false
  | p :: ps, c :: cs => p = c && charsStartWith ps cs

/-- Python `s.startswith(pre)`. -/
def pyStartswith (s pre : String) : Bool :=
  charsStartWith pre.data s.data

/-- Helper for `pySplit1`: split a char list at the first occurrence of
`sep`, returning the parts before and after it, or `none` if absent. -/
def splitFirstAux (sep : Char) : List Char → Option (List Char × List Char)
  | [] => Option.none
  | c :: cs =>
    if c = sep then some ([], cs)
    else
      match splitFirstAux sep cs with
      | some (a, b) => some (c :: a, b)
      | Option.none => Option.none

/-- Python `s.split(sep, 1)`: a two-element list split at the first `sep`,
or the one-element list `[s]` when `sep` does not occur. -/
def pySplit1 (sep : Char) (s : String) : List String :=
  match splitFirstAux sep s.data with
  | some (a, b) => [String.mk a, String.mk b]
  | Option.none => [s]

/-- Python `os.path.join(a, b)` on POSIX for two arguments. -/
def osPathJoin (a b : String) : String :=
  if pyStartswith b "/" then b
  else if a = "" ∨ a.endsWith "/" then a ++ b
  else a ++ "/" ++ b

/-- An observable side effect of the methods under consideration. -/
inductive Event where
  | print (s : String)
  | openPreset (path : String) (compPos : PyValue) (name : String)
  | commandHelp
  | drawPreview
  | savePresetCall
  | emitModified (compPos : PyValue) (store : PyDict)
deriving DecidableEq, Repr

/-- Outcome of running an effectful method: the trace of events in order,
and `some code` when the method terminated the process via `quit(code)`
(`quit()` with no argument is `some PyValue.none`, exit status 0). -/
structure ProcResult where
  trace : List Event
  exit : Option PyValue
deriving DecidableEq, Repr

/-- The state of a `Component` instance: the five attributes set by
`Component.__init__`, plus `extra` for any further attributes set later
via `setattr` (Python instances have a single attribute namespace). -/
structure Component where
  currentPreset : PyValue
  canceled : PyValue
  moduleIndex : PyValue
  compPos : PyValue
  core : PyValue
  extra : PyDict
deriving DecidableEq, Repr

/-- `Component.__init__(self, moduleIndex, compPos, core)`. -/
def Component.init (moduleIndex compPos core : PyValue) : Component :=
  { currentPreset := PyValue.none
    canceled := PyValue.bool false
    moduleIndex := moduleIndex
    compPos := compPos
    core := core
    extra := [] }

/-- Python `setattr(self, k, v)` on a `Component`: named attributes are the
structure fields, anything else lands in `extra`. -/
def Component.setattr (c : Component) (k : String) (v : PyValue) : Component :=
  if k = "currentPreset" then { c with currentPreset := v }
  else if k = "canceled" then { c with canceled := v }
  else if k = "moduleIndex" then { c with moduleIndex := v }
  else if k = "compPos" then { c with compPos := v }
  else if k = "core" then { c with core := v }
  else { c with extra := dictInsert c.extra k v }

/-- Python `getattr(self, k)`; `Option.none` models an `AttributeError`. -/
def Component.getattr (c : Component) (k : String) : Option PyValue :=
  if k = "currentPreset" then some c.currentPreset
  else if k = "canceled" then some c.canceled
  else if k = "moduleIndex" then some c.moduleIndex
  else if k = "compPos" then some c.compPos
  else if k = "core" then some c.core
  else dictGet c.extra k

/-- `Component.cancel(self)`: `self.canceled = True`. -/
def Component.cancel (c : Component) : Component :=
  { c with canceled := PyValue.bool true }

/-- `Component.reset(self)`: `self.canceled = False`. -/
def Component.reset (c : Component) : Component :=
  { c with canceled := PyValue.bool false }

/-- `Component.update(self)`. The subclass-supplied `self.savePreset()`
returns the dict `saveValueStore` (passed in as a parameter); the calls
`self.parent.drawPreview()`, `self.savePreset()` and
`self.modified.emit(...)` are recorded as events in program order. -/
def Component.update (c : Component) (saveValueStore : PyDict) : List Event :=
  let store := dictInsert saveValueStore "preset" c.currentPreset
  [Event.drawPreview, Event.savePresetCall,
    Event.emitModified c.compPos store]

/-- `Component.loadPreset(self, presetDict, presetName)`:
`self.currentPreset = presetName if presetName is not None else
presetDict['preset']`, where a missing key raises `KeyError`. -/
def Component.loadPreset (c : Component) (presetDict : PyDict)
    (presetName : PyValue) : Except PyError Component :=
  if presetName ≠ PyValue.none then
    Except.ok { c with currentPreset := presetName }
  else
    match dictGet presetDict "preset" with
    | some v => Except.ok { c with currentPreset := v }
    | Option.none => Except.error (PyError.keyError "preset")

/-- `Component.preFrameRender(self, **kwargs)`:
`for key, value in kwargs.items(): setattr(self, key, value)`.
The kwargs dict is passed as an association list in iteration order. -/
def Component.preFrameRender (c : Component) (kwargs : PyDict) : Component :=
  kwargs.foldl (fun acc kv => acc.setattr kv.1 kv.2) c

/-- The ASCII apostrophe, kept out of string literals. -/
def apos : String := String.singleton (Char.ofNat 39)

/-- The message printed when the preset file is missing:
`'Couldn\'t locate preset "%s"' % preset`. -/
def couldNotLocateMsg (preset : String) : String :=
  "Couldn" ++ apos ++ "t locate preset \"" ++ preset ++ "\""

/-- The message printed when the preset file exists:
`'Opening "%s" preset on layer %s' % (preset, self.compPos)`. -/
def openingMsg (preset : String) (compPos : PyValue) : String :=
  "Opening \"" ++ preset ++ "\" preset on layer " ++ pyStr compPos

/-- The usage text printed alongside `self.__doc__` (Python concatenates
the adjacent string literals). -/
def usageMsg : String :=
  "Usage:\nOpen a preset for this component:\n    \"preset=Preset Name\""

/-- Externally-determined inputs of `Component.command`: the value of
`self.core.getPresetDir(self)`, the `os.path.exists` oracle, and the
class docstring `self.__doc__` (possibly `None`). -/
structure Env where
  getPresetDir : String
  pathExists : String → Bool
  doc : PyValue

/-- `Component.command(self, arg)`. `print(a, b)` joins its arguments with
a space; `quit(n)` ends the run with exit value `n`. The dead branch where
tuple unpacking of `arg.split('=', 1)` fails raises `ValueError`. -/
def Component.command (c : Component) (env : Env) (arg : String) :
    Except PyError ProcResult :=
  if pyStartswith arg "preset=" then
    match pySplit1 '=' arg with
    | [_, preset] =>
      let path := osPathJoin env.getPresetDir preset
      if !(env.pathExists path) then
        Except.ok { trace := [Event.print (couldNotLocateMsg preset)]
                    exit := some (PyValue.int 1) }
      else
        Except.ok { trace := [Event.print (openingMsg preset c.compPos),
                              Event.openPreset path c.compPos preset]
                    exit := Option.none }
    | _ => Except.error PyError.valueError
  else
    Except.ok { trace := [Event.print (pyStr env.doc ++ " " ++ usageMsg),
                          Event.commandHelp]
                exit := some (PyValue.int 0) }

/-- The banner printed by `BadComponentInit.__init__`:
the triple-quoted template with `%s` replaced by `arg` and `name`. -/
def badInitBanner (arg name : String) : String :=
  "################################\nMandatory argument \"" ++ arg ++
    "\" not specified\n  in " ++ name ++
    " instance initialization\n###################################"

/-- `BadComponentInit.__init__(self, arg, name)`: print the banner, then
`quit()` (no argument, exit status 0). -/
def BadComponentInit.init (arg name : String) : ProcResult :=
  { trace := [Event.print (badInitBanner arg name)]
    exit := some PyValue.none }

/-! ## Helper lemmas -/

theorem charsStartWith_append (p l : List Char) :
    charsStartWith p (p ++ l) = true := by
  induction p with
  | nil => rfl
  | cons c cs ih => simp [charsStartWith, ih]

theorem data_presetEq : ("preset=" : String).data =
    ['p', 'r', 'e', 's', 'e', 't', '='] := rfl

theorem pyStartswith_presetEq_append (name : String) :
    pyStartswith ("preset=" ++ name) "preset=" = true := by
  show charsStartWith ("preset=" : String).data ("preset=" ++ name).data = true
  rw [String.data_append]
  exact charsStartWith_append _ _

theorem splitFirstAux_presetEq (l : List Char) :
    splitFirstAux '=' ('p' :: 'r' :: 'e' :: 's' :: 'e' :: 't' :: '=' :: l) =
      some (['p', 'r', 'e', 's', 'e', 't'], l) := by
  simp +decide [splitFirstAux]

theorem pySplit1_presetEq (name : String) :
    pySplit1 '=' ("preset=" ++ name) = ["preset", name] := by
  have h : ("preset=" ++ name).data =
      ['p', 'r', 'e', 's', 'e', 't', '='] ++ name.data := by
    rw [String.data_append, data_presetEq]
  simp [pySplit1, h, splitFirstAux_presetEq]

theorem dictGet_dictInsert_self (d : PyDict) (k : String) (v : PyValue) :
    dictGet (dictInsert d k v) k = some v := by
  induction d with
  | nil => simp [dictInsert, dictGet]
  | cons kv rest ih =>
    obtain ⟨k', v'⟩ := kv
    by_cases hk : k' = k <;> simp [dictInsert, dictGet, hk, ih]

theorem dictGet_dictInsert_ne (d : PyDict) (k k' : String) (v : PyValue)
    (h : k' ≠ k) : dictGet (dictInsert d k' v) k = dictGet d k := by
  induction d with
  | nil => simp [dictInsert, dictGet, h]
  | cons kv rest ih =>
    obtain ⟨a, b⟩ := kv
    by_cases ha : a = k' <;> simp [dictInsert, dictGet, ha, h, ih]

theorem getattr_setattr_self (c : Component) (k : String) (v : PyValue) :
    (c.setattr k v).getattr k = some v := by
  by_cases h1 : k = "currentPreset"
  · subst h1; simp [Component.setattr, Component.getattr]
  · by_cases h2 : k = "canceled"
    · subst h2; simp [Component.setattr, Component.getattr]
    · by_cases h3 : k = "moduleIndex"
      · subst h3; simp [Component.setattr, Component.getattr]
      · by_cases h4 : k = "compPos"
        · subst h4; simp [Component.setattr, Component.getattr]
        · by_cases h5 : k = "core"
          · subst h5; simp [Component.setattr, Component.getattr]
          · simp [Component.setattr, Component.getattr, h1, h2, h3, h4, h5,
              dictGet_dictInsert_self]

theorem getattr_setattr_ne (c : Component) (k k' : String) (v : PyValue)
    (h : k' ≠ k) : (c.setattr k' v).getattr k = c.getattr k := by
  have hne : k ≠ k' := fun he => h he.symm
  by_cases h1 : k' = "currentPreset"
  · subst h1; simp [Component.setattr, Component.getattr, hne]
  · by_cases h2 : k' = "canceled"
    · subst h2; simp [Component.setattr, Component.getattr, hne]
    · by_cases h3 : k' = "moduleIndex"
      · subst h3; simp [Component.setattr, Component.getattr, hne]
      · by_cases h4 : k' = "compPos"
        · subst h4; simp [Component.setattr, Component.getattr, hne]
        · by_cases h5 : k' = "core"
          · subst h5; simp [Component.setattr, Component.getattr, hne]
          · simp only [Component.setattr, Component.getattr, h1, h2, h3, h4, h5,
              if_false, dictGet_dictInsert_ne c.extra k k' v h]

theorem preFrameRender_cons (c : Component) (kv : String × PyValue)
    (rest : PyDict) :
    c.preFrameRender (kv :: rest) = (c.setattr kv.1 kv.2).preFrameRender rest :=
  rfl

theorem preFrameRender_getattr_of_notMem (c : Component) (kwargs : PyDict)
    (k : String) (h : k ∉ kwargs.map Prod.fst) :
    (c.preFrameRender kwargs).getattr k = c.getattr k := by
  induction kwargs generalizing c with
  | nil => rfl
  | cons kv rest ih =>
    simp only [List.map_cons, List.mem_cons, not_or] at h
    rw [preFrameRender_cons, ih _ h.2,
      getattr_setattr_ne _ _ _ _ (fun he => h.1 he.symm)]

/-! ## Claim theorems -/

/-- Claim C1: for an argument of the form `preset=<name>` (with `<name>`
everything after the first `=`), when a file exists at the join of the
preset directory and `<name>`, `Component.command` prints the opening
message and calls `core.openPreset(path, self.compPos, <name>)`, and does
not terminate the process (exit is `none`). -/
theorem C1_command_preset_found (c : Component) (env : Env) (name : String)
    (h : env.pathExists (osPathJoin env.getPresetDir name) = true) :
    c.command env ("preset=" ++ name) =
      Except.ok { trace := [Event.print (openingMsg name c.compPos),
                            Event.openPreset (osPathJoin env.getPresetDir name)
                              c.compPos name]
                  exit := Option.none } := by
  simp [Component.command, pyStartswith_presetEq_append, pySplit1_presetEq, h]

/-- Witness for C1 at a concrete component, environment and preset name. -/
theorem C1_command_preset_found_witness :
    (Component.init (PyValue.int 0) (PyValue.int 2) (PyValue.obj 0)).command
        { getPresetDir := "presets", pathExists := fun _ => true,
          doc := PyValue.none } ("preset=" ++ "Foo") =
      Except.ok { trace := [Event.print (openingMsg "Foo" (PyValue.int 2)),
                            Event.openPreset (osPathJoin "presets" "Foo")
                              (PyValue.int 2) "Foo"]
                  exit := Option.none } :=
  C1_command_preset_found _ _ "Foo" rfl

/-- Claim C2: for an argument `preset=<name>` whose joined path does not
exist, `Component.command` prints an error naming the preset, terminates
the process with exit code 1, and never calls `core.openPreset`. -/
theorem C2_command_preset_missing (c : Component) (env : Env) (name : String)
    (h : env.pathExists (osPathJoin env.getPresetDir name) = false) :
    ∃ res, c.command env ("preset=" ++ name) = Except.ok res ∧
      res.trace = [Event.print (couldNotLocateMsg name)] ∧
      res.exit = some (PyValue.int 1) ∧
      ∀ p q r, Event.openPreset p q r ∉ res.trace := by
  refine ⟨{ trace := [Event.print (couldNotLocateMsg name)]
            exit := some (PyValue.int 1) }, ?_, rfl, rfl, ?_⟩
  · simp [Component.command, pyStartswith_presetEq_append, pySplit1_presetEq, h]
  · intro p q r
    simp

/-- Witness for C2 at a concrete component, environment and preset name. -/
theorem C2_command_preset_missing_witness :
    ∃ res, (Component.init (PyValue.int 0) (PyValue.int 2)
        (PyValue.obj 0)).command
        { getPresetDir := "presets", pathExists := fun _ => false,
          doc := PyValue.none } ("preset=" ++ "Foo") = Except.ok res ∧
      res.trace = [Event.print (couldNotLocateMsg "Foo")] ∧
      res.exit = some (PyValue.int 1) ∧
      ∀ p q r, Event.openPreset p q r ∉ res.trace :=
  C2_command_preset_missing _ _ "Foo" rfl

/-- Claim C3: `Component.update` requests a preview redraw, then delegates
to the subclass-supplied `savePreset`, stores `self.currentPreset` into the
returned dict under the key `preset`, and as its final action emits the
modified notification with `(self.compPos, that dict)`; the stored dict
indeed maps `preset` to `self.currentPreset`. -/
theorem C3_update_order (c : Component) (saveValueStore : PyDict) :
    c.update saveValueStore =
      [Event.drawPreview, Event.savePresetCall,
        Event.emitModified c.compPos
          (dictInsert saveValueStore "preset" c.currentPreset)] ∧
    dictGet (dictInsert saveValueStore "preset" c.currentPreset) "preset" =
      some c.currentPreset :=
  ⟨rfl, dictGet_dictInsert_self _ _ _⟩

/-- Claim C4: after `Component.preFrameRender(**kwargs)`, every key of the
kwargs mapping (keys are distinct, as in a Python dict) is an instance
attribute whose value is the value passed for that key. -/
theorem C4_preFrameRender_sets (c : Component) (kwargs : PyDict)
    (hnd : (kwargs.map Prod.fst).Nodup) (k : String) (v : PyValue)
    (hmem : (k, v) ∈ kwargs) :
    (c.preFrameRender kwargs).getattr k = some v := by
  induction kwargs generalizing c with
  | nil => cases hmem
  | cons kv rest ih =>
    simp only [List.map_cons, List.nodup_cons] at hnd
    rw [preFrameRender_cons]
    rcases List.mem_cons.mp hmem with heq | hrest
    · have h1 : kv.1 = k := by rw [← heq]
      have h2 : kv.2 = v := by rw [← heq]
      rw [preFrameRender_getattr_of_notMem _ _ _ (h1 ▸ hnd.1), h1, h2]
      exact getattr_setattr_self c k v
    · exact ih (c.setattr kv.1 kv.2) hnd.2 hrest

/-- Witness for C4 at a concrete component and kwargs mapping. -/
theorem C4_preFrameRender_sets_witness :
    ((Component.init (PyValue.int 0) (PyValue.int 1)
        (PyValue.obj 3)).preFrameRender
        [("worker", PyValue.obj 5), ("sampleSize", PyValue.int 1470)]).getattr
      "sampleSize" = some (PyValue.int 1470) :=
  C4_preFrameRender_sets _ _ (by decide) _ _ (by decide)

/-- Claim C5: after `Component.__init__(moduleIndex, compPos, core)` the
instance carries exactly these fields: `moduleIndex`, `compPos` and `core`
equal to the arguments, `currentPreset` is `None`, `canceled` is `False`,
and no other attribute is set (`extra` is empty). -/
theorem C5_init_fields (moduleIndex compPos core : PyValue) :
    (Component.init moduleIndex compPos core).moduleIndex = moduleIndex ∧
    (Component.init moduleIndex compPos core).compPos = compPos ∧
    (Component.init moduleIndex compPos core).core = core ∧
    (Component.init moduleIndex compPos core).currentPreset = PyValue.none ∧
    (Component.init moduleIndex compPos core).canceled = PyValue.bool false ∧
    (Component.init moduleIndex compPos core).extra = [] :=
  ⟨rfl, rfl, rfl, rfl, rfl, rfl⟩

/-- Claim C6: `BadComponentInit(arg, name)` prints a banner containing both
`arg` and `name`, and then terminates the process via `quit()` (modelled as
`exit = some PyValue.none`, exit status 0), so the exception value is never
returned to the constructing caller. -/
theorem C6_badComponentInit (arg name : String) :
    (∃ s1 s2 s3, badInitBanner arg name = s1 ++ arg ++ s2 ++ name ++ s3) ∧
    (BadComponentInit.init arg name).trace =
      [Event.print (badInitBanner arg name)] ∧
    (BadComponentInit.init arg name).exit = some PyValue.none :=
  ⟨⟨"################################\nMandatory argument \"",
    "\" not specified\n  in ",
    " instance initialization\n###################################",
    rfl⟩, rfl, rfl⟩

/-- Claim C7: `Component.loadPreset(presetDict, presetName)` sets
`currentPreset` to `presetName` when it is not `None`; when `presetName`
is `None` it sets `currentPreset` to `presetDict['preset']`, and when that
key is absent the call fails with a `KeyError` instead of completing. -/
theorem C7_loadPreset (c : Component) (presetDict : PyDict)
    (presetName : PyValue) :
    (presetName ≠ PyValue.none →
      c.loadPreset presetDict presetName =
        Except.ok { c with currentPreset := presetName }) ∧
    (presetName = PyValue.none →
      (∀ v, dictGet presetDict "preset" = some v →
        c.loadPreset presetDict presetName =
          Except.ok { c with currentPreset := v }) ∧
      (dictGet presetDict "preset" = Option.none →
        c.loadPreset presetDict presetName =
          Except.error (PyError.keyError "preset"))) := by
  constructor
  · intro h
    simp [Component.loadPreset, h]
  · intro h
    subst h
    constructor
    · intro v hv
      simp [Component.loadPreset, hv]
    · intro hv
      simp [Component.loadPreset, hv]

/-- Witness for C7: all three cases at concrete inputs. -/
theorem C7_loadPreset_witness :
    (Component.init (PyValue.int 0) (PyValue.int 1) (PyValue.obj 7)).loadPreset
        [] (PyValue.str "A") =
      Except.ok { Component.init (PyValue.int 0) (PyValue.int 1)
        (PyValue.obj 7) with currentPreset := PyValue.str "A" } ∧
    (Component.init (PyValue.int 0) (PyValue.int 1) (PyValue.obj 7)).loadPreset
        [("preset", PyValue.str "B")] PyValue.none =
      Except.ok { Component.init (PyValue.int 0) (PyValue.int 1)
        (PyValue.obj 7) with currentPreset := PyValue.str "B" } ∧
    (Component.init (PyValue.int 0) (PyValue.int 1) (PyValue.obj 7)).loadPreset
        [] PyValue.none = Except.error (PyError.keyError "preset") :=
  ⟨(C7_loadPreset _ _ _).1 (by decide),
   ((C7_loadPreset _ _ _).2 rfl).1 (PyValue.str "B") rfl,
   ((C7_loadPreset _ _ _).2 rfl).2 rfl⟩

/-- Claim C8: for any argument that does not start with `preset=`,
`Component.command` prints the docstring together with the usage message,
calls `self.commandHelp()`, terminates with exit code 0, and never calls
`core.openPreset`. -/
theorem C8_command_usage (c : Component) (env : Env) (arg : String)
    (h : pyStartswith arg "preset=" = false) :
    ∃ res, c.command env arg = Except.ok res ∧
      res.trace = [Event.print (pyStr env.doc ++ " " ++ usageMsg),
        Event.commandHelp] ∧
      res.exit = some (PyValue.int 0) ∧
      ∀ p q r, Event.openPreset p q r ∉ res.trace := by
  refine ⟨{ trace := [Event.print (pyStr env.doc ++ " " ++ usageMsg),
              Event.commandHelp]
            exit := some (PyValue.int 0) }, ?_, rfl, rfl, ?_⟩
  · simp [Component.command, h]
  · intro p q r
    simp

/-- Witness for C8 at a concrete component, environment and argument. -/
theorem C8_command_usage_witness :
    ∃ res, (Component.init (PyValue.int 0) (PyValue.int 2)
        (PyValue.obj 0)).command
        { getPresetDir := "presets", pathExists := fun _ => true,
          doc := PyValue.str "Image component" } "x" = Except.ok res ∧
      res.trace = [Event.print (pyStr (PyValue.str "Image component") ++ " "
        ++ usageMsg), Event.commandHelp] ∧
      res.exit = some (PyValue.int 0) ∧
      ∀ p q r, Event.openPreset p q r ∉ res.trace :=
  C8_command_usage _ _ "x" (by decide)

/-- Claim C9: `Component.cancel` sets `canceled` to `True` and
`Component.reset` sets it to `False`; neither changes `moduleIndex`,
`compPos`, `core`, `currentPreset` or any other attribute, and `reset`
after `cancel` restores `canceled` to its post-construction value. -/
theorem C9_cancel_reset (c : Component) (m p co : PyValue) :
    c.cancel.canceled = PyValue.bool true ∧
    c.cancel.moduleIndex = c.moduleIndex ∧
    c.cancel.compPos = c.compPos ∧
    c.cancel.core = c.core ∧
    c.cancel.currentPreset = c.currentPreset ∧
    c.cancel.extra = c.extra ∧
    c.reset.canceled = PyValue.bool false ∧
    c.reset.moduleIndex = c.moduleIndex ∧
    c.reset.compPos = c.compPos ∧
    c.reset.core = c.core ∧
    c.reset.currentPreset = c.currentPreset ∧
    c.reset.extra = c.extra ∧
    c.cancel.reset.canceled = (Component.init m p co).canceled :=
  ⟨rfl, rfl, rfl, rfl, rfl, rfl, rfl, rfl, rfl, rfl, rfl, rfl, rfl⟩
